import Mathlib

/-!
Verification of the attestation/assertion subsystem of kacy/auth-proxy.

The development shallowly embeds the Go code of
`internal/attestation/attestation.go`, `internal/attestation/interceptor.go`
and the HTTP attestation middleware. Machine integers (`time.Duration`,
i.e. int64 nanoseconds) are modelled as `Int`; Go strings as `String`;
Go byte slices as `List Nat`; a Go `error` result as `Option` of an
error-kind enumeration (with `none` playing the role of `nil`).

The external dependency `github.com/kacy/device-attestation` (the
platform verification adapter and the challenge / key stores) is not part
of the repository sources.  Its verifier is therefore embedded as an
uninterpreted function field of the `Verifier` structure (the orchestrator
only inspects the returned error), and the in-memory challenge store is
modelled from the specification, as documented at its definition.

An adapter error value is modelled by the unique sentinel error it
matches via `errors.Is` (or `unknown` when it matches none of the
sentinels inspected by `convertError`); this is faithful for the usual
single-sentinel wrap chains produced by the library.
-/

set_option autoImplicit false

namespace AuthProxy

/-- Platform enumeration from attestation.go; the Go `type Platform int`
only ever takes the three declared constant values, and the spec models it
as a closed tagged variant. -/
inductive Platform where
  | unspecified
  | ios
  | android
deriving DecidableEq

/-- Sentinel errors of the device-attestation library that `convertError`
distinguishes with `errors.Is`; `unknown` stands for every error matching
none of them (e.g. a transport error). -/
inductive ErrKind where
  | invalidAttestation
  | verificationFailed
  | invalidBundleID
  | deviceCompromised
  | appNotRecognized
  | keyNotFound
  | counterReplay
  | invalidAssertion
  | unknown
deriving DecidableEq

/-- Package-level sentinel errors of package attestation (attestation.go,
lines 20-28). -/
inductive AttErr where
  | attestationRequired
  | invalidAttestation
  | unsupportedPlatform
  | attestationExpired
  | invalidAssertion
  | keyNotFound
  | replayDetected
deriving DecidableEq

/-- Config from attestation.go (fields not inspected by the verified
operations are kept for fidelity). -/
structure Config where
  iosEnabled : Bool
  androidEnabled : Bool
  iosBundleID : String
  iosTeamID : String
  androidPackageName : String
  gcpProjectID : String
  gcpCredentialsFile : String
  requireStrongIntegrity : Bool
  challengeTimeout : Int
deriving DecidableEq

/-- AttestationData from attestation.go. -/
structure AttestationData where
  platform : Platform
  token : String
  keyID : String
  challenge : String
  bundleID : String
deriving DecidableEq

/-- AssertionData from attestation.go (ClientData is a byte slice). -/
structure AssertionData where
  assertion : String
  clientData : List Nat
  keyID : String
  bundleID : String
deriving DecidableEq

/-- deviceattest.Request as built by verifyIOS / verifyAndroid. -/
structure DeviceRequest where
  platform : Platform
  attestation : String
  challenge : String
  keyID : String
  bundleID : String
deriving DecidableEq

/-- ios.AssertionRequest as built by VerifyAssertion. -/
structure AssertionRequest where
  assertion : String
  clientData : List Nat
  keyID : String
  bundleID : String
deriving DecidableEq

/-- Challenge record of the challenge store.  Modelled from the spec:
the store itself lives in the external device-attestation dependency;
the spec data model gives a Challenge `identifier`, `nonce`, `issuedAt`,
`expiresAt` and a `consumed` flag. -/
structure Challenge where
  identifier : String
  nonce : String
  issuedAt : Int
  expiresAt : Int
  consumed : Bool
deriving DecidableEq

/-- Modelled from the spec: the in-memory challenge store
(`challenge.NewMemoryStore` of the external device-attestation library).
Entries are kept in an association list keyed by nonce, read through a
first-match lookup, which gives the semantics of a Go map keyed by the
nonce.  Time is passed explicitly to the operations. -/
structure MemoryStore where
  entries : List (String × Challenge)
deriving DecidableEq

/-- First entry stored under the given nonce. -/
def lookupNonce : List (String × Challenge) → String → Option Challenge
  | [], _ => none
  | (k, c) :: rest, n => if k = n then some c else lookupNonce rest n

/-- The challenge with its consumed flag set. -/
def consumeChallenge (c : Challenge) : Challenge :=
  ⟨c.identifier, c.nonce, c.issuedAt, c.expiresAt, true⟩

/-- Sets `consumed := true` on the entry stored under the given nonce. -/
def markConsumed : List (String × Challenge) → String → List (String × Challenge)
  | [], _ => []
  | (k, c) :: rest, n =>
    if k = n then (k, consumeChallenge c) :: rest
    else (k, c) :: markConsumed rest n

/-- Modelled from the spec: `Validate(identifier, nonce) -> bool`
"atomically checks existence, non-expiry, non-consumption, and identifier
match, and if all hold, marks `consumed = true` and returns true;
otherwise returns false without side effects". -/
def MemoryStore.Validate (st : MemoryStore) (now : Int) (identifier nonce : String) :
    Bool × MemoryStore :=
  match lookupNonce st.entries nonce with
  | none => (false, st)
  | some c =>
    if c.identifier = identifier ∧ c.consumed = false ∧ now ≤ c.expiresAt then
      (true, ⟨markConsumed st.entries nonce⟩)
    else
      (false, st)

/-- Modelled from the spec: `Generate(identifier) -> nonce` "creates and
persists a new Challenge for `identifier` with `issuedAt = now`,
`expiresAt = now + timeout`, `consumed = false`".  The randomly drawn
nonce is supplied by the environment, so it appears as a parameter. -/
def MemoryStore.Generate (st : MemoryStore) (now timeout : Int) (identifier nonce : String) :
    MemoryStore :=
  ⟨(nonce, ⟨identifier, nonce, now, now + timeout, false⟩) :: st.entries⟩

/-- Verifier from attestation.go.  The embedded external
deviceattest.Verifier is represented by its two observable error
behaviours `deviceVerify` (method Verify) and `assertVerify` (method
VerifyAssertion); the success metadata of the library result is only
used for logging and is not modelled.  `challengeStore` is `none` when
the constructor left it nil (both platforms disabled). -/
structure Verifier where
  config : Config
  deviceVerify : DeviceRequest → Option ErrKind
  assertVerify : AssertionRequest → Option ErrKind
  challengeStore : Option MemoryStore

/-- IsEnabled from attestation.go. -/
def Verifier.IsEnabled (v : Verifier) : Bool :=
  v.config.iosEnabled || v.config.androidEnabled

/-- convertError from attestation.go: the ordered `errors.Is` switch,
written as a match on the unique sentinel the error value carries. -/
def convertError : ErrKind → AttErr
  | .invalidAttestation => .invalidAttestation
  | .verificationFailed => .invalidAttestation
  | .invalidBundleID => .invalidAttestation
  | .deviceCompromised => .invalidAttestation
  | .appNotRecognized => .invalidAttestation
  | .keyNotFound => .keyNotFound
  | .counterReplay => .replayDetected
  | .invalidAssertion => .invalidAssertion
  | .unknown => .invalidAttestation

/-- The deviceattest.Request built by verifyIOS, with the bundle-id
fallback to the configured IOSBundleID. -/
def iosAttReq (cfg : Config) (d : AttestationData) : DeviceRequest :=
  ⟨.ios, d.token, d.challenge, d.keyID,
    if d.bundleID = "" then cfg.iosBundleID else d.bundleID⟩

/-- The deviceattest.Request built by verifyAndroid (KeyID and BundleID
are left at their zero values). -/
def androidAttReq (d : AttestationData) : DeviceRequest :=
  ⟨.android, d.token, d.challenge, "", ""⟩

/-- The ios.AssertionRequest built by VerifyAssertion, with the bundle-id
fallback to the configured IOSBundleID. -/
def assertReq (cfg : Config) (d : AssertionData) : AssertionRequest :=
  ⟨d.assertion, d.clientData, d.keyID,
    if d.bundleID = "" then cfg.iosBundleID else d.bundleID⟩

/-- verifyIOS from attestation.go. -/
def Verifier.verifyIOS (v : Verifier) (d : AttestationData) : Option AttErr :=
  match v.deviceVerify (iosAttReq v.config d) with
  | some e => some (convertError e)
  | none => none

/-- verifyAndroid from attestation.go. -/
def Verifier.verifyAndroid (v : Verifier) (d : AttestationData) : Option AttErr :=
  match v.deviceVerify (androidAttReq d) with
  | some e => some (convertError e)
  | none => none

/-- Verify from attestation.go: disabled pass-through, required-data
check, then dispatch on the platform tag (the Go switch default arm is
the `unspecified` case of the closed enumeration). -/
def Verifier.Verify (v : Verifier) (data : Option AttestationData) : Option AttErr :=
  if v.IsEnabled = false then none
  else
    match data with
    | none => some .attestationRequired
    | some d =>
      match d.platform with
      | .ios => v.verifyIOS d
      | .android => v.verifyAndroid d
      | .unspecified => some .unsupportedPlatform

/-- VerifyAssertion from attestation.go. -/
def Verifier.VerifyAssertion (v : Verifier) (data : Option AssertionData) : Option AttErr :=
  if v.config.iosEnabled = false then none
  else
    match data with
    | none => some .attestationRequired
    | some d =>
      match v.assertVerify (assertReq v.config d) with
      | some e => some (convertError e)
      | none => none

/-- ValidateChallenge from attestation.go: nil store means attestation is
disabled and every challenge validates; otherwise the store decides and
the updated store is kept in the verifier. -/
def Verifier.ValidateChallenge (v : Verifier) (now : Int) (identifier challengeToken : String) :
    Bool × Verifier :=
  match v.challengeStore with
  | none => (true, v)
  | some st =>
    ((st.Validate now identifier challengeToken).1,
      ⟨v.config, v.deviceVerify, v.assertVerify,
        some (st.Validate now identifier challengeToken).2⟩)

/-- Value of 5*time.Minute in nanoseconds (time.Duration units). -/
def fiveMinutes : Int := 5 * 60 * 1000000000

/-- Projection of NewVerifier (attestation.go, lines 90-140) onto its
challenge-timeout wiring: `none` when both platforms are disabled (no
stores are set up); otherwise the pair of the timeout handed to the
challenge store and the timeout placed in deviceattest.Config.  Both the
memory-store path and the redis-store path receive the same computed
value. -/
def newVerifierTimeouts (cfg : Config) : Option (Int × Int) :=
  if !cfg.iosEnabled && !cfg.androidEnabled then none
  else
    let timeout := if cfg.challengeTimeout = 0 then fiveMinutes else cfg.challengeTimeout
    some (timeout, timeout)

/-- Go strings.ToLower, modelled character-wise (unicode.ToLower applied
to every rune; Char.toLower covers the ASCII range, which contains every
constant the switch below compares against). -/
def goToLower (s : String) : String :=
  ⟨s.data.map Char.toLower⟩

/-- Go strings.HasPrefix, modelled character-wise (equivalent to the Go
byte-wise test on valid UTF-8). -/
def goHasPre (p s : String) : Bool :=
  p.data.isPrefixOf s.data

/-- parsePlatform from the HTTP middleware: the Go switch on
strings.ToLower(s), with two header spellings per platform. -/
def parsePlatform (s : String) : Platform :=
  if goToLower s = "ios" ∨ goToLower s = "apple" then .ios
  else if goToLower s = "android" ∨ goToLower s = "google" then .android
  else .unspecified

/-- Error values reaching the HTTP error writer: one of the attestation
package sentinels, or any other error value (the switch default). -/
inductive HErr where
  | att (e : AttErr)
  | other
deriving DecidableEq

/-- The JSON error response written by the middleware: HTTP status code,
"error" field and "message" field. -/
structure HttpErrResponse where
  status : Nat
  errorCode : String
  message : String
deriving DecidableEq

/-- handleError from the HTTP middleware: the switch on the error value,
with every arm writing fixed string constants. -/
def handleError : HErr → HttpErrResponse
  | .att .attestationRequired =>
    ⟨401, "attestation_required", "Device attestation is required for this request"⟩
  | .att .invalidAttestation =>
    ⟨403, "invalid_attestation", "Device attestation verification failed"⟩
  | .att .unsupportedPlatform =>
    ⟨400, "unsupported_platform", "Unsupported platform for attestation"⟩
  | .att .keyNotFound =>
    ⟨401, "key_not_found", "Attestation key not found, re-attestation required"⟩
  | .att .replayDetected =>
    ⟨403, "replay_detected", "Assertion replay detected"⟩
  | .att .invalidAssertion =>
    ⟨403, "invalid_assertion", "Invalid assertion"⟩
  | _ =>
    ⟨500, "attestation_error", "Attestation verification error"⟩

/-- The fixed response constants handleError can write (one per switch
arm).  Every response body is drawn from this list, so no internal error
text ever reaches a client. -/
def handleErrorResponses : List HttpErrResponse :=
  [⟨401, "attestation_required", "Device attestation is required for this request"⟩,
   ⟨403, "invalid_attestation", "Device attestation verification failed"⟩,
   ⟨400, "unsupported_platform", "Unsupported platform for attestation"⟩,
   ⟨401, "key_not_found", "Attestation key not found, re-attestation required"⟩,
   ⟨403, "replay_detected", "Assertion replay detected"⟩,
   ⟨403, "invalid_assertion", "Invalid assertion"⟩,
   ⟨500, "attestation_error", "Attestation verification error"⟩]

/-- gRPC status codes used by the attestation interceptor. -/
inductive GrpcCode where
  | unauthenticated
  | permissionDenied
  | invalidArgument
  | internal
deriving DecidableEq

/-- The error mapping of UnaryServerInterceptor (interceptor.go, lines
42-51): the switch on the verification error, default arm included. -/
def interceptorStatus : AttErr → GrpcCode × String
  | .attestationRequired => (.unauthenticated, "app attestation required")
  | .invalidAttestation => (.permissionDenied, "invalid app attestation")
  | .unsupportedPlatform => (.invalidArgument, "unsupported platform")
  | _ => (.internal, "attestation verification failed")

/-- Outcome of the gRPC interceptor on one call. -/
inductive GateDecision where
  | passNoCheck
  | rejected (code : GrpcCode) (msg : String)
  | passVerified
deriving DecidableEq

/-- UnaryServerInterceptor from interceptor.go: health checks and a
disabled verifier pass straight through; otherwise the attestation data
extracted from the request is verified and a failure is mapped to a gRPC
status.  The extracted data is a parameter, standing for the result of
extractAttestationData (which the health-check branch never calls). -/
def unaryInterceptorGate (v : Verifier) (fullMethod : String)
    (data : Option AttestationData) : GateDecision :=
  if fullMethod = "/auth.v1.HealthService/Check" then .passNoCheck
  else if v.IsEnabled = false then .passNoCheck
  else
    match v.Verify data with
    | some e => .rejected (interceptorStatus e).1 (interceptorStatus e).2
    | none => .passVerified

/-- The attestation headers of an HTTP request (empty string means the
header is absent, as in Go). -/
structure Headers where
  attestation : String
  platform : String
  keyID : String
  challenge : String
  assertion : String
  clientData : String
deriving DecidableEq

/-- Outcome of the HTTP attestation middleware on one request. -/
inductive HttpOutcome where
  | passNoCheck
  | errorOut (r : HttpErrResponse)
  | passVerified
deriving DecidableEq

/-- verifyAttestation of the HTTP middleware: builds AttestationData from
the headers (BundleID left at its zero value) and calls Verify. -/
def mwVerifyAttestation (v : Verifier) (h : Headers) : Option AttErr :=
  v.Verify (some ⟨parsePlatform h.platform, h.attestation, h.keyID, h.challenge, ""⟩)

/-- verifyAssertion of the HTTP middleware: base64-decodes the client
data (the stdlib decoder is the `decode` parameter; `none` models a
decoding error, turned into ErrInvalidAssertion) and calls
VerifyAssertion. -/
def mwVerifyAssertion (v : Verifier) (decode : String → Option (List Nat))
    (h : Headers) : Option AttErr :=
  match decode h.clientData with
  | none => some .invalidAssertion
  | some clientData =>
    v.VerifyAssertion (some ⟨h.assertion, clientData, h.keyID, ""⟩)

/-- Middleware from the HTTP attestation middleware: health paths and a
disabled verifier pass straight through without reading any attestation
header; otherwise the assertion flow, the attestation flow, or the
missing-evidence rejection, with errors written by handleError. -/
def middlewareGate (v : Verifier) (decode : String → Option (List Nat))
    (path : String) (h : Headers) : HttpOutcome :=
  if goHasPre "/health" path then .passNoCheck
  else if v.IsEnabled = false then .passNoCheck
  else if h.assertion ≠ "" then
    match mwVerifyAssertion v decode h with
    | some e => .errorOut (handleError (.att e))
    | none => .passVerified
  else if h.attestation ≠ "" then
    match mwVerifyAttestation v h with
    | some e => .errorOut (handleError (.att e))
    | none => .passVerified
  else
    .errorOut (handleError (.att .attestationRequired))

/-! Concrete configurations, verifiers and request data used to
instantiate the theorems below. -/

/-- Configuration with both platforms disabled, as accepted by
NewVerifier (which then sets up no stores). -/
def disabledConfig : Config := ⟨false, false, "", "", "", "", "", false, 0⟩

/-- iOS-only configuration with zero challenge timeout. -/
def iosOnlyConfig : Config := ⟨true, false, "com.test.app", "TEAM123", "", "", "", false, 0⟩

/-- Android-only configuration. -/
def androidOnlyConfig : Config := ⟨false, true, "", "", "com.test.app", "proj", "", false, 0⟩

/-- A verifier as produced by NewVerifier with both platforms disabled:
nil challenge store (the adapter functions are irrelevant on every path
such a verifier can take). -/
def nilStoreVerifier : Verifier := ⟨disabledConfig, fun _ => none, fun _ => none, none⟩

/-- The empty in-memory challenge store. -/
def emptyStore : MemoryStore := ⟨[]⟩

/-- Store holding one fresh challenge for identifier "dev-1". -/
def storeWithChallenge : MemoryStore := emptyStore.Generate 0 300 "dev-1" "n1"

/-- iOS-enabled verifier with a succeeding adapter and one outstanding
challenge. -/
def enabledVerifierW : Verifier :=
  ⟨iosOnlyConfig, fun _ => none, fun _ => none, some storeWithChallenge⟩

/-- iOS-enabled verifier whose adapter fails with an error matching
ios.ErrKeyNotFound. -/
def keyNotFoundVerifier : Verifier :=
  ⟨iosOnlyConfig, fun _ => some .keyNotFound, fun _ => none, none⟩

/-- iOS-enabled verifier whose assertion adapter fails with an error
matching ios.ErrCounterReplay. -/
def replayVerifier : Verifier :=
  ⟨iosOnlyConfig, fun _ => none, fun _ => some .counterReplay, none⟩

/-- Android-only verifier (iOS disabled) with a succeeding adapter. -/
def androidOnlyVerifier : Verifier :=
  ⟨androidOnlyConfig, fun _ => none, fun _ => none, some emptyStore⟩

/-- Sample iOS attestation request data. -/
def exampleAttData : AttestationData := ⟨.ios, "tok", "key-1", "nonce-1", ""⟩

/-- Sample attestation request data with an unspecified platform. -/
def unspecAttData : AttestationData := ⟨.unspecified, "tok", "key-1", "nonce-1", ""⟩

/-- Sample assertion request data. -/
def exampleAssertionData : AssertionData := ⟨"sig", [1, 2, 3], "key-1", ""⟩

/-! Helper lemmas about the challenge store. -/

/-- Marking a nonce consumed rewrites exactly the entry a lookup of that
nonce returns. -/
theorem lookupNonce_markConsumed (l : List (String × Challenge)) (n : String)
    (c : Challenge) (h : lookupNonce l n = some c) :
    lookupNonce (markConsumed l n) n = some (consumeChallenge c) := by
  induction l with
  | nil => simp [lookupNonce] at h
  | cons p rest ih =>
    obtain ⟨k, c0⟩ := p
    by_cases hk : k = n
    · simp [lookupNonce, markConsumed, hk] at h ⊢
      rw [h]
    · simp only [lookupNonce, markConsumed, if_neg hk] at h ⊢
      exact ih h

/-- A successful store validation leaves the state with the entry marked
consumed. -/
theorem validate_true_state (st : MemoryStore) (now : Int) (id n : String)
    (h : (st.Validate now id n).1 = true) :
    (st.Validate now id n).2 = ⟨markConsumed st.entries n⟩ := by
  cases hl : lookupNonce st.entries n with
  | none => simp [MemoryStore.Validate, hl] at h
  | some c =>
    by_cases hc : c.identifier = id ∧ c.consumed = false ∧ now ≤ c.expiresAt
    · simp [MemoryStore.Validate, hl, hc]
    · simp [MemoryStore.Validate, hl, hc] at h

/-- Store-level single use: once Validate has returned true for a pair,
any later Validate of the same pair returns false. -/
theorem validate_single_use (st : MemoryStore) (now1 now2 : Int) (id n : String)
    (h : (st.Validate now1 id n).1 = true) :
    ((st.Validate now1 id n).2.Validate now2 id n).1 = false := by
  rw [validate_true_state st now1 id n h]
  cases hl : lookupNonce st.entries n with
  | none => simp [MemoryStore.Validate, hl] at h
  | some c =>
    by_cases hc : c.identifier = id ∧ c.consumed = false ∧ now1 ≤ c.expiresAt
    · have h2 := lookupNonce_markConsumed st.entries n c hl
      simp [MemoryStore.Validate, h2, consumeChallenge]
    · simp [MemoryStore.Validate, hl, hc] at h

/-- C1 counterexample: on the Verifier reachable through NewVerifier with
both platforms disabled the challenge store is nil, so after a first
ValidateChallenge("dev-1", "n1") call that returns true, the second call
with the same identifier and nonce again returns true — not false as the
claim states for every reachable Verifier. -/
theorem C1_counterexample :
    (nilStoreVerifier.ValidateChallenge 0 "dev-1" "n1").1 = true ∧
    ((nilStoreVerifier.ValidateChallenge 0 "dev-1" "n1").2.ValidateChallenge 0
      "dev-1" "n1").1 = true :=
  ⟨rfl, rfl⟩

/-- C1 (amended): single-use challenge holds for every Verifier whose
challenge store is present (some platform enabled): once
ValidateChallenge(identifier, nonce) has returned true, a second call
with the same identifier and nonce returns false, at any time; with a nil
store ValidateChallenge returns true unconditionally. -/
theorem C1_single_use_challenge (v : Verifier) (st : MemoryStore)
    (now1 now2 : Int) (id n : String)
    (hst : v.challengeStore = some st)
    (h : (v.ValidateChallenge now1 id n).1 = true) :
    ((v.ValidateChallenge now1 id n).2.ValidateChallenge now2 id n).1 = false := by
  simp only [Verifier.ValidateChallenge, hst] at h ⊢
  exact validate_single_use st now1 now2 id n h

/-- C1 witness: a freshly generated challenge for "dev-1" validates once
and is refused on the second attempt. -/
theorem C1_single_use_challenge_witness :
    (enabledVerifierW.ValidateChallenge 0 "dev-1" "n1").1 = true ∧
    ((enabledVerifierW.ValidateChallenge 0 "dev-1" "n1").2.ValidateChallenge 5
      "dev-1" "n1").1 = false :=
  ⟨by decide,
   C1_single_use_challenge enabledVerifierW storeWithChallenge 0 5 "dev-1" "n1"
     rfl (by decide)⟩

/-- C2 counterexample: during the attestation flow an adapter error
matching ios.ErrKeyNotFound is translated by convertError to
ErrKeyNotFound, not to ErrInvalidAttestation, so not every adapter
failure collapses to the single external error. -/
theorem C2_counterexample :
    keyNotFoundVerifier.Verify (some exampleAttData) = some AttErr.keyNotFound ∧
    AttErr.keyNotFound ≠ AttErr.invalidAttestation := by
  exact ⟨rfl, by decide⟩

/-- C2 (amended): every adapter error not matching ios.ErrKeyNotFound,
ios.ErrCounterReplay or ios.ErrInvalidAssertion is translated to
ErrInvalidAttestation (collapsing bad signature, untrusted chain,
identifier mismatch, compromised device and unknown transport errors);
errors matching those three sentinels are translated to ErrKeyNotFound,
ErrReplayDetected and ErrInvalidAssertion respectively, and both
verifyIOS and verifyAndroid return exactly convertError of the adapter
error. -/
theorem C2_attestation_error_collapse :
    (∀ e : ErrKind, e ≠ .keyNotFound → e ≠ .counterReplay → e ≠ .invalidAssertion →
      convertError e = .invalidAttestation) ∧
    convertError .keyNotFound = .keyNotFound ∧
    convertError .counterReplay = .replayDetected ∧
    convertError .invalidAssertion = .invalidAssertion ∧
    (∀ (v : Verifier) (d : AttestationData) (e : ErrKind),
      v.deviceVerify (iosAttReq v.config d) = some e →
      v.verifyIOS d = some (convertError e)) ∧
    (∀ (v : Verifier) (d : AttestationData) (e : ErrKind),
      v.deviceVerify (androidAttReq d) = some e →
      v.verifyAndroid d = some (convertError e)) := by
  refine ⟨?_, rfl, rfl, rfl, ?_, ?_⟩
  · intro e h1 h2 h3
    cases e <;> simp_all [convertError]
  · intro v d e h
    unfold Verifier.verifyIOS
    rw [h]
  · intro v d e h
    unfold Verifier.verifyAndroid
    rw [h]

/-- C2 witness: an unknown transport error collapses to
ErrInvalidAttestation, while a key-not-found adapter error surfaces as
ErrKeyNotFound through verifyIOS. -/
theorem C2_attestation_error_collapse_witness :
    convertError ErrKind.unknown = AttErr.invalidAttestation ∧
    keyNotFoundVerifier.verifyIOS exampleAttData = some AttErr.keyNotFound :=
  ⟨C2_attestation_error_collapse.1 .unknown (by decide) (by decide) (by decide),
   C2_attestation_error_collapse.2.2.2.2.1 keyNotFoundVerifier exampleAttData
     .keyNotFound rfl⟩

/-- C3: with both platform flags false, Verify and VerifyAssertion return
nil for every input (including the nil data pointer), for every adapter
behaviour and store state — so no store or adapter is consulted. -/
theorem C3_disabled_pass_through (v : Verifier)
    (hios : v.config.iosEnabled = false) (hand : v.config.androidEnabled = false) :
    (∀ data : Option AttestationData, v.Verify data = none) ∧
    (∀ data : Option AssertionData, v.VerifyAssertion data = none) := by
  have he : v.IsEnabled = false := by
    simp [Verifier.IsEnabled, hios, hand]
  constructor
  · intro data
    simp [Verifier.Verify, he]
  · intro data
    simp [Verifier.VerifyAssertion, hios]

/-- C3 witness: the disabled verifier passes a nil attestation and a nil
assertion through. -/
theorem C3_disabled_pass_through_witness :
    nilStoreVerifier.Verify none = none ∧
    nilStoreVerifier.VerifyAssertion none = none :=
  ⟨(C3_disabled_pass_through nilStoreVerifier rfl rfl).1 none,
   (C3_disabled_pass_through nilStoreVerifier rfl rfl).2 none⟩

/-- C4: on an iOS-enabled Verifier with non-nil assertion data,
VerifyAssertion returns ErrKeyNotFound exactly when the underlying
verifier error matches ios.ErrKeyNotFound, ErrReplayDetected exactly when
it matches ios.ErrCounterReplay, ErrInvalidAssertion exactly when it
matches ios.ErrInvalidAssertion, and nil exactly when the underlying
verification succeeds. -/
theorem C4_assertion_error_mapping (v : Verifier) (d : AssertionData)
    (h : v.config.iosEnabled = true) :
    (v.VerifyAssertion (some d) = some .keyNotFound ↔
      v.assertVerify (assertReq v.config d) = some .keyNotFound) ∧
    (v.VerifyAssertion (some d) = some .replayDetected ↔
      v.assertVerify (assertReq v.config d) = some .counterReplay) ∧
    (v.VerifyAssertion (some d) = some .invalidAssertion ↔
      v.assertVerify (assertReq v.config d) = some .invalidAssertion) ∧
    (v.VerifyAssertion (some d) = none ↔
      v.assertVerify (assertReq v.config d) = none) := by
  cases hr : v.assertVerify (assertReq v.config d) with
  | none => simp [Verifier.VerifyAssertion, h, hr]
  | some e => cases e <;> simp [Verifier.VerifyAssertion, h, hr, convertError]

/-- C4 witness: a counter-replay adapter error surfaces as
ErrReplayDetected. -/
theorem C4_assertion_error_mapping_witness :
    replayVerifier.VerifyAssertion (some exampleAssertionData) =
      some AttErr.replayDetected :=
  ((C4_assertion_error_mapping replayVerifier exampleAssertionData rfl).2.1).mpr rfl

/-- C5: when some platform is enabled, a nil AttestationData yields
ErrAttestationRequired from Verify, and when iOS is enabled a nil
AssertionData yields ErrAttestationRequired from VerifyAssertion; the
result is the same for every adapter behaviour and store state, so
neither store nor adapter is touched. -/
theorem C5_absent_evidence (v : Verifier) :
    (v.IsEnabled = true → v.Verify none = some .attestationRequired) ∧
    (v.config.iosEnabled = true →
      v.VerifyAssertion none = some .attestationRequired) := by
  constructor
  · intro he
    simp [Verifier.Verify, he]
  · intro hi
    simp [Verifier.VerifyAssertion, hi]

/-- C5 witness: the iOS-enabled verifier rejects absent evidence with
ErrAttestationRequired on both entry points. -/
theorem C5_absent_evidence_witness :
    enabledVerifierW.Verify none = some AttErr.attestationRequired ∧
    enabledVerifierW.VerifyAssertion none = some AttErr.attestationRequired :=
  ⟨(C5_absent_evidence enabledVerifierW).1 rfl,
   (C5_absent_evidence enabledVerifierW).2 rfl⟩

/-- C6: on an enabled Verifier, attestation data whose platform is
neither iOS nor Android is rejected with ErrUnsupportedPlatform, and
parsePlatform maps every header string whose lowercase form is none of
"ios", "apple", "android", "google" to PlatformUnspecified. -/
theorem C6_closed_platform_dispatch :
    (∀ (v : Verifier) (d : AttestationData), v.IsEnabled = true →
      d.platform ≠ .ios → d.platform ≠ .android →
      v.Verify (some d) = some .unsupportedPlatform) ∧
    (∀ s : String, goToLower s ≠ "ios" → goToLower s ≠ "apple" →
      goToLower s ≠ "android" → goToLower s ≠ "google" →
      parsePlatform s = .unspecified) := by
  constructor
  · intro v d he h1 h2
    cases hp : d.platform with
    | unspecified => simp [Verifier.Verify, he, hp]
    | ios => exact absurd hp h1
    | android => exact absurd hp h2
  · intro s h1 h2 h3 h4
    simp [parsePlatform, h1, h2, h3, h4]

/-- C6 witness: unspecified-platform data is rejected as unsupported, and
the header string "windows" parses to PlatformUnspecified. -/
theorem C6_closed_platform_dispatch_witness :
    keyNotFoundVerifier.Verify (some unspecAttData) =
      some AttErr.unsupportedPlatform ∧
    parsePlatform "windows" = Platform.unspecified :=
  ⟨C6_closed_platform_dispatch.1 keyNotFoundVerifier unspecAttData rfl
     (by decide) (by decide),
   C6_closed_platform_dispatch.2 "windows" (by decide) (by decide) (by decide)
     (by decide)⟩

/-- C7: the complete response tables of the HTTP error writer and the
gRPC interceptor.  handleError maps ErrAttestationRequired and
ErrKeyNotFound to 401, ErrInvalidAttestation, ErrReplayDetected and
ErrInvalidAssertion to 403, ErrUnsupportedPlatform to 400, and every
other error (ErrAttestationExpired and non-attestation errors) to 500
with the fixed generic body; every response is one of the fixed constant
bodies, so no internal error text reaches a client.  The interceptor
maps ErrAttestationRequired to Unauthenticated, ErrInvalidAttestation to
PermissionDenied, ErrUnsupportedPlatform to InvalidArgument and every
other verification error to Internal with a fixed message. -/
theorem C7_stable_error_surface :
    handleError (.att .attestationRequired) =
      ⟨401, "attestation_required", "Device attestation is required for this request"⟩ ∧
    handleError (.att .keyNotFound) =
      ⟨401, "key_not_found", "Attestation key not found, re-attestation required"⟩ ∧
    handleError (.att .invalidAttestation) =
      ⟨403, "invalid_attestation", "Device attestation verification failed"⟩ ∧
    handleError (.att .replayDetected) =
      ⟨403, "replay_detected", "Assertion replay detected"⟩ ∧
    handleError (.att .invalidAssertion) =
      ⟨403, "invalid_assertion", "Invalid assertion"⟩ ∧
    handleError (.att .unsupportedPlatform) =
      ⟨400, "unsupported_platform", "Unsupported platform for attestation"⟩ ∧
    handleError (.att .attestationExpired) =
      ⟨500, "attestation_error", "Attestation verification error"⟩ ∧
    handleError .other =
      ⟨500, "attestation_error", "Attestation verification error"⟩ ∧
    (handleError (.att .attestationRequired) ∈ handleErrorResponses ∧
     handleError (.att .keyNotFound) ∈ handleErrorResponses ∧
     handleError (.att .invalidAttestation) ∈ handleErrorResponses ∧
     handleError (.att .replayDetected) ∈ handleErrorResponses ∧
     handleError (.att .invalidAssertion) ∈ handleErrorResponses ∧
     handleError (.att .unsupportedPlatform) ∈ handleErrorResponses ∧
     handleError (.att .attestationExpired) ∈ handleErrorResponses ∧
     handleError .other ∈ handleErrorResponses) ∧
    interceptorStatus .attestationRequired =
      (.unauthenticated, "app attestation required") ∧
    interceptorStatus .invalidAttestation =
      (.permissionDenied, "invalid app attestation") ∧
    interceptorStatus .unsupportedPlatform =
      (.invalidArgument, "unsupported platform") ∧
    interceptorStatus .attestationExpired =
      (.internal, "attestation verification failed") ∧
    interceptorStatus .invalidAssertion =
      (.internal, "attestation verification failed") ∧
    interceptorStatus .keyNotFound =
      (.internal, "attestation verification failed") ∧
    interceptorStatus .replayDetected =
      (.internal, "attestation verification failed") := by
  decide

/-- C8: with at least one platform enabled, a zero configured challenge
timeout makes NewVerifier hand exactly five minutes (5*time.Minute in
nanoseconds) to both the challenge store and the device-attestation
verifier configuration, and a non-zero timeout is passed through
unchanged to both. -/
theorem C8_default_challenge_timeout (cfg : Config)
    (he : cfg.iosEnabled = true ∨ cfg.androidEnabled = true) :
    (cfg.challengeTimeout = 0 →
      newVerifierTimeouts cfg = some (fiveMinutes, fiveMinutes)) ∧
    (cfg.challengeTimeout ≠ 0 →
      newVerifierTimeouts cfg = some (cfg.challengeTimeout, cfg.challengeTimeout)) := by
  have hcond : (!cfg.iosEnabled && !cfg.androidEnabled) = false := by
    rcases he with h | h <;> simp [h]
  constructor
  · intro h0
    simp [newVerifierTimeouts, hcond, h0]
  · intro h0
    simp [newVerifierTimeouts, hcond, h0]

/-- C8 witness: the iOS-only configuration with zero timeout gets the
five-minute default on both sides. -/
theorem C8_default_challenge_timeout_witness :
    newVerifierTimeouts iosOnlyConfig = some (fiveMinutes, fiveMinutes) :=
  (C8_default_challenge_timeout iosOnlyConfig (Or.inl rfl)).1 rfl

/-- C9 (implicit): VerifyAssertion depends only on the iOS flag — with
IOSEnabled false it returns nil for every input (nil included), for every
adapter and store, even when AndroidEnabled is true. -/
theorem C9_assertion_ios_flag_only (v : Verifier) (data : Option AssertionData)
    (h : v.config.iosEnabled = false) :
    v.VerifyAssertion data = none := by
  simp [Verifier.VerifyAssertion, h]

/-- C9 witness: an Android-only verifier accepts an assertion request
without any check. -/
theorem C9_assertion_ios_flag_only_witness :
    androidOnlyVerifier.VerifyAssertion (some exampleAssertionData) = none :=
  C9_assertion_ios_flag_only androidOnlyVerifier (some exampleAssertionData) rfl

/-- C10 (implicit): the gRPC interceptor passes the health-check method
through without verification for every verifier and request, and the HTTP
middleware passes every path beginning with "/health" through without
verification, for every verifier and every header set (so no attestation
header is read and neither Verify nor VerifyAssertion is called — the
outcome is the no-check pass constructor, uniform in the headers and the
extracted data). -/
theorem C10_health_check_exemption :
    (∀ (v : Verifier) (data : Option AttestationData),
      unaryInterceptorGate v "/auth.v1.HealthService/Check" data = .passNoCheck) ∧
    (∀ (v : Verifier) (decode : String → Option (List Nat)) (path : String)
      (h : Headers), goHasPre "/health" path = true →
      middlewareGate v decode path h = .passNoCheck) := by
  constructor
  · intro v data
    simp [unaryInterceptorGate]
  · intro v decode path h hp
    simp [middlewareGate, hp]

/-- C10 witness: a request to "/healthz" bypasses the fully enabled
verifier. -/
theorem C10_health_check_exemption_witness :
    middlewareGate enabledVerifierW (fun _ => none) "/healthz"
      ⟨"", "", "", "", "", ""⟩ = HttpOutcome.passNoCheck :=
  C10_health_check_exemption.2 enabledVerifierW (fun _ => none) "/healthz"
    ⟨"", "", "", "", "", ""⟩ (by decide)

end AuthProxy
